import Mathlib

/-!
Verification of the Globe repository (`src/main.js`): an interactive 3D globe
with GeoJSON country overlays and hover highlighting.

The development shallowly embeds the two logical cores of the program:

* the picking / selection state machine driven by the pointer handlers
  (`onPointerMove`, `onMouseDown`, `onMouseUp`, and the auto-rotation guard of
  `run`), over an explicit application state;
* the geographic projection (`latLonToVec3`, `createShapeMesh`) over the reals,
  together with the GeoJSON loading pipeline of `setup` / `loadJSON`.

External collaborators (the three.js scene graph, raycaster and triangulator)
are modelled at the narrow interface the program uses from them: the raycaster
as the nearest-hit result fed to the pointer-move handler, and the
`ShapeGeometry` triangulation as a function parameter producing the flat
vertex list that the code then remaps onto the sphere.

Screen-space quantities (pointer coordinates, window sizes) are embedded as
rationals: the arithmetic performed on them in the source (`(x / w) * 2 - 1`)
is exact, and this keeps the state machine fully executable.  The projection
math uses the reals.
-/

namespace Globe

/-! ## Scene objects

A scene child, at the granularity the program uses: `id` (three.js `Object3D.id`,
a number), `name` (set from `properties.admin`, or `"globe"` for the base
sphere), and the current material color (`material.color`, as a packed hex
number). -/

structure Obj where
  id : Nat
  name : String
  color : Nat
deriving DecidableEq

abbrev Scene := List Obj

/-- Reading an object's material color through its id
(`scene.getObjectById(id).material.color` / `intersects[0].object.material.color`
in `src/main.js`).  three.js object ids are globally unique, so lookup by id is
the object itself; `0` is a default for the impossible missing-id case. -/
def getColor : Scene → Nat → Nat
  | [], _ => 0
  | o :: t, i => if o.id == i then o.color else getColor t i

/-- Writing an object's material color through its id
(`scene.getObjectById(id).material.color = c` and
`intersects[0].object.material.color.set(c)` in `src/main.js`). -/
def setColor : Scene → Nat → Nat → Scene
  | [], _, _ => []
  | o :: t, i, c => (if o.id == i then { o with color := c } else o) :: setColor t i c

/-! ## Application state

The module-level mutable globals of `src/main.js:13-16` plus the label element:
`pointer` (a `THREE.Vector2`; the program also *reads* a `pointer.locked` field
in `run` that is never assigned anywhere, so it is `undefined`, modelled as
`Option Bool` starting at `none`), `selected`, `mouseState.down`, the scene,
and `output.innerHTML`. -/

structure Selected where
  id : Option Nat
  color : Nat
  locked : Bool
deriving DecidableEq

structure PointerState where
  x : ℚ
  y : ℚ
  /-- never assigned anywhere in `src/main.js`; reads yield `undefined`. -/
  locked : Option Bool
deriving DecidableEq

structure MoveEvent where
  clientX : ℚ
  clientY : ℚ
deriving DecidableEq

structure AppState where
  scene : Scene
  pointer : PointerState
  selected : Selected
  mouseDown : Bool
  output : String
deriving DecidableEq

/-- The nearest raycaster hit (`intersects[0].object`), at the interface the
handler uses: its id and name. -/
structure Hit where
  id : Nat
  name : String
deriving DecidableEq

/-- Recolor events observable at the rendering-engine boundary. -/
inductive Event where
  | highlight (id : Nat)
  | restore (id : Nat)
deriving DecidableEq

/-- JavaScript truthiness of `selected.id` (`null` and `0` are falsy). -/
def jsTruthyId : Option Nat → Bool
  | none => false
  | some i => i != 0

/-- JavaScript truthiness of the (never assigned) `pointer.locked` field:
`undefined` is falsy. -/
def jsTruthyOpt : Option Bool → Bool
  | none => false
  | some b => b

def labelHTML (name : String) : String :=
  "<p class=\"name\">" ++ name ++ "</p>"

/-- The selection branch of `onPointerMove` (`src/main.js:97-107`), taken when
the nearest hit is a non-globe object with an id different from the current
selection: restore the previous selection if there is one (line 98-100), then
remember the new id, clone its current color (lines 102-103, the read happens
after the restore), recolor it to the highlight color `0xD74E09` and show its
name (lines 105-106). -/
def selectObject (h : Hit) (s : AppState) : AppState × List Event :=
  if jsTruthyId s.selected.id then
    let sc1 := setColor s.scene (s.selected.id.getD 0) s.selected.color
    ({ s with scene := setColor sc1 h.id 0xD74E09,
              selected := { id := some h.id, color := getColor sc1 h.id,
                            locked := s.selected.locked },
              output := labelHTML h.name },
     [Event.restore (s.selected.id.getD 0), Event.highlight h.id])
  else
    ({ s with scene := setColor s.scene h.id 0xD74E09,
              selected := { id := some h.id, color := getColor s.scene h.id,
                            locked := s.selected.locked },
              output := labelHTML h.name },
     [Event.highlight h.id])

/-- The deselection branch of `onPointerMove` (`src/main.js:109-114`), taken
when nothing (or only the globe) is hit: if `selected.id` is truthy, restore
its color, clear the id and the label. -/
def deselect (s : AppState) : AppState × List Event :=
  if jsTruthyId s.selected.id then
    ({ s with scene := setColor s.scene (s.selected.id.getD 0) s.selected.color,
              selected := { s.selected with id := none },
              output := "" },
     [Event.restore (s.selected.id.getD 0)])
  else (s, [])

/-- `onPointerMove` (`src/main.js:87-115`).  The raycast
(`raycaster.intersectObjects`) is an external collaborator; its nearest hit is
the `hit` argument (`none` when `intersects.length === 0`).  Returns the new
state and the recolor events emitted at the rendering boundary. -/
def onPointerMove (win : ℚ × ℚ) (ev : MoveEvent) (hit : Option Hit)
    (s : AppState) : AppState × List Event :=
  if s.mouseDown then (s, [])
  else
    let s1 := { s with pointer := { s.pointer with
                  x := ev.clientX / win.1 * 2 - 1,
                  y := -(ev.clientY / win.2) * 2 + 1 } }
    match hit with
    | some h =>
      if h.name ≠ "globe" then
        if s1.selected.id ≠ some h.id then selectObject h s1 else (s1, [])
      else deselect s1
    | none => deselect s1

/-- `onMouseDown` (`src/main.js:117-120`): sets `mouseState.down` and assigns
`selected.locked = false`.  It does not touch `selected.id`. -/
def onMouseDown (s : AppState) : AppState :=
  { s with mouseDown := true, selected := { s.selected with locked := false } }

/-- `onMouseUp` (`src/main.js:122-124`). -/
def onMouseUp (s : AppState) : AppState :=
  { s with mouseDown := false }

/-- The auto-rotation guard of the render step (`src/main.js:71`):
`if (!mouseState.down && !pointer.locked) scene.rotateY(-0.0005)`. -/
def autoRotates (s : AppState) : Bool :=
  !s.mouseDown && !jsTruthyOpt s.pointer.locked

/-- The state after `setup` has populated the scene (`src/main.js:15-16`):
`selected` is `{ id: null, color: new THREE.Color(), locked: false }`
(a fresh `THREE.Color()` is white), `mouseState.down` is `false`, the pointer
is a fresh `THREE.Vector2` with no `locked` property, and the label is empty. -/
def initState (scene : Scene) : AppState :=
  { scene := scene,
    pointer := { x := 0, y := 0, locked := none },
    selected := { id := none, color := 0xFFFFFF, locked := false },
    mouseDown := false,
    output := "" }

/-- One delivered browser event. -/
inductive Step where
  | move (win : ℚ × ℚ) (ev : MoveEvent) (hit : Option Hit)
  | down
  | up

def applyStep : Step → AppState → AppState
  | .move win ev hit, s => (onPointerMove win ev hit s).1
  | .down, s => onMouseDown s
  | .up, s => onMouseUp s

/-- States reachable from startup by any sequence of pointer events. -/
inductive Reachable (scene : Scene) : AppState → Prop
  | init : Reachable scene (initState scene)
  | step (st : Step) {s : AppState} : Reachable scene s →
      Reachable scene (applyStep st s)

/-- Feed a scripted sequence of nearest-hit results to the pointer-move
handler, collecting the per-step event lists. -/
def runMoves (win : ℚ × ℚ) (ev : MoveEvent) (hits : List (Option Hit))
    (s : AppState) : AppState × List (List Event) :=
  match hits with
  | [] => (s, [])
  | h :: rest =>
    let p := onPointerMove win ev h s
    let q := runMoves win ev rest p.1
    (q.1, p.2 :: q.2)

/-! ## Geographic projection (`src/main.js:140-154`, `195-223`) -/

/-- `latLonToVec3` (`src/main.js:140-154`): converts angles to radians when
the `deg` flag is set, then produces
`y = sin(lon)`, `x = sin(lat)*cos(lon)`, `z = cos(lat)*cos(lon)` and scales
the vector by `radius` (`multiplyScalar`).  The tuple is `(x, y, z)`. -/
noncomputable def latLonToVec3 (lat lon : ℝ) (radius : ℝ) (deg : Bool) :
    ℝ × ℝ × ℝ :=
  let lat' := if deg then lat * Real.pi / 180 else lat
  let lon' := if deg then lon * Real.pi / 180 else lon
  let l := Real.cos lon'
  let y := Real.sin lon'
  let x := Real.sin lat' * l
  let z := Real.cos lat' * l
  (x * radius, y * radius, z * radius)

/-- The degree-to-radian conversion that `latLonToVec3` applies exactly when
the `deg` flag is set. -/
noncomputable def convAngle (deg : Bool) (a : ℝ) : ℝ :=
  if deg then a * Real.pi / 180 else a

/-- Euclidean distance of a point from the origin. -/
noncomputable def norm3 (v : ℝ × ℝ × ℝ) : ℝ :=
  Real.sqrt (v.1 ^ 2 + v.2.1 ^ 2 + v.2.2 ^ 2)

/-! ## GeoJSON data and the mesh pipeline of `setup` -/

/-- An untyped GeoJSON coordinate value: a number or a nested array, as the
code manipulates `geometry.coordinates` without a schema. -/
inductive JVal where
  | num (x : ℝ)
  | arr (elems : List JVal)

/-- The unwrap step of `setup` (`src/main.js:46-47`):
`if (points.length === 1) points = points[0]`.  A number's `.length` is
`undefined`, which is not `=== 1`, so only one-element arrays are unwrapped. -/
def unwrapSingle : JVal → JVal
  | .arr [q] => q
  | v => v

/-- Whether a value is a one-element array (the shape `unwrapSingle` strips). -/
def isSingletonArr : JVal → Bool
  | .arr [_] => true
  | _ => false

/-- Reading `[0]` and `[1]` of a coordinate pair as numbers
(`coordinatesArray[i][0]`, `coordinatesArray[i][1]` in `createShapeMesh`);
anything else would produce `NaN` garbage in the source, modelled as `none`. -/
def decodePair : JVal → Option (ℝ × ℝ)
  | .arr (.num x :: .num y :: _) => some (x, y)
  | _ => none

def decodePairs : List JVal → Option (List (ℝ × ℝ))
  | [] => some []
  | v :: rest =>
    match decodePair v, decodePairs rest with
    | some p, some ps => some (p :: ps)
    | _, _ => none

def decodeRing : JVal → Option (List (ℝ × ℝ))
  | .num _ => none
  | .arr l => decodePairs l

/-- The flat `THREE.Shape` contour built by `createShapeMesh`
(`src/main.js:200-205`): each coordinate scaled by `π/180`, first point a
`moveTo`, the rest `lineTo` — i.e. the list of scaled points in order. -/
noncomputable def shapePoints (coords : List (ℝ × ℝ)) : List (ℝ × ℝ) :=
  coords.map fun p => (p.1 * Real.pi / 180, p.2 * Real.pi / 180)

/-- The per-vertex remap of `createShapeMesh` (`src/main.js:210-218`): the
flat vertex's `x` is read as `lat`, its `y` as `lon`, and the position is
rewritten to `(sin(lat)*cos(lon)*r, sin(lon)*r, cos(lat)*cos(lon)*r)`,
ignoring the old `z`. -/
noncomputable def remapVertex (globeRadius : ℝ) (v : ℝ × ℝ × ℝ) : ℝ × ℝ × ℝ :=
  let lat := v.1
  let lon := v.2.1
  let l := Real.cos lon
  (Real.sin lat * l * globeRadius, Real.sin lon * globeRadius,
   Real.cos lat * l * globeRadius)

/-- `createShapeMesh` (`src/main.js:195-223`), at the vertex level: build the
flat contour, triangulate it in the plane (`new THREE.ShapeGeometry(shape)`,
an external collaborator passed as the `triangulate` parameter, producing the
flat vertex list of `geo.attributes.position`), then remap every vertex onto
the sphere.  `none` models the `NaN` garbage a malformed coordinate array
produces.  The material color does not affect vertex data and is omitted. -/
noncomputable def createShapeMesh
    (triangulate : List (ℝ × ℝ) → List (ℝ × ℝ × ℝ))
    (coordinatesArray : JVal) (globeRadius : ℝ) : Option (List (ℝ × ℝ × ℝ)) :=
  (decodeRing coordinatesArray).map fun pts =>
    (triangulate (shapePoints pts)).map (remapVertex globeRadius)

/-- One iteration of the inner loop of `setup` (`src/main.js:45-48`): unwrap a
single-element nesting, then build the shape mesh. -/
noncomputable def processEntry (triangulate : List (ℝ × ℝ) → List (ℝ × ℝ × ℝ))
    (globeRadius : ℝ) (points : JVal) : Option (List (ℝ × ℝ × ℝ)) :=
  createShapeMesh triangulate (unwrapSingle points) globeRadius

/-! ## Startup data load (`src/main.js:18,35-52,129-138`) -/

/-- One GeoJSON feature as the program reads it: `properties.admin` and
`geometry.coordinates`. -/
structure Feature where
  admin : String
  coordinates : List JVal

structure GeoData where
  features : List Feature

/-- The possible outcomes of `fetch` + `res.json()` for the data file. -/
inductive FetchResult where
  /-- `res.ok` and the body parses as JSON. -/
  | success (data : GeoData)
  /-- a response with `!res.ok` (the code throws `"Failed to fetch file"`). -/
  | httpError
  /-- `fetch` itself rejects. -/
  | networkError
  /-- `res.json()` rejects. -/
  | parseError

/-- `loadJSON` (`src/main.js:129-138`): any failure is caught, logged with
`console.error`, and `null` is returned. -/
def loadJSON : FetchResult → Option GeoData
  | .success d => some d
  | _ => none

/-- The per-feature shade (`src/main.js:42-43`): a random byte replicated
across channels, OR'd with the base tint `0xF0F0C9`. -/
def shadeOf (value : Nat) : Nat :=
  ((value <<< 16) ||| (value <<< 8) ||| value) ||| 0xF0F0C9

structure NamedMesh where
  name : String
  shade : Nat
  verts : Option (List (ℝ × ℝ × ℝ))

/-- The mesh-building loops of `setup` (`src/main.js:38-52`) on non-null data:
for each feature (whose random byte is `rand i`), for each coordinates entry,
unwrap and build a shape mesh at radius `globeRadius + 1.5 = 21.5`, named
after the feature's `admin` property. -/
noncomputable def setupMeshes (triangulate : List (ℝ × ℝ) → List (ℝ × ℝ × ℝ))
    (rand : Nat → Nat) (data : GeoData) : List NamedMesh :=
  data.features.enum.flatMap fun p =>
    p.2.coordinates.map fun pts =>
      { name := p.2.admin, shade := shadeOf (rand p.1),
        verts := processEntry triangulate (20 + 1.5) pts }

/-- What `setup` does with the value returned by `loadJSON`
(`src/main.js:35-52`): it immediately evaluates `data.features.length`.
When `loadJSON` returned `null`, that member access throws a `TypeError`
which nothing catches — `await setup()` rejects and `run()` is never invoked,
so startup aborts.  On non-null data the mesh loops run. -/
noncomputable def setupAfterLoad (triangulate : List (ℝ × ℝ) → List (ℝ × ℝ × ℝ))
    (rand : Nat → Nat) : Option GeoData → Except String (List NamedMesh)
  | none => .error "TypeError: Cannot read properties of null (reading features)"
  | some data => .ok (setupMeshes triangulate rand data)

/-! ## Helper lemmas -/

/-- The sum of squares of a projected point is the square of the radius:
the formula is norm-preserving by construction. -/
theorem proj_sum_sq (a b r : ℝ) :
    (Real.sin a * Real.cos b * r) ^ 2 + (Real.sin b * r) ^ 2 +
      (Real.cos a * Real.cos b * r) ^ 2 = r ^ 2 := by
  have hs : Real.sin a ^ 2 + Real.cos a ^ 2 = 1 := Real.sin_sq_add_cos_sq a
  have hb : Real.sin b ^ 2 + Real.cos b ^ 2 = 1 := Real.sin_sq_add_cos_sq b
  calc (Real.sin a * Real.cos b * r) ^ 2 + (Real.sin b * r) ^ 2 +
        (Real.cos a * Real.cos b * r) ^ 2
      = (Real.sin a ^ 2 + Real.cos a ^ 2) * Real.cos b ^ 2 * r ^ 2 +
        Real.sin b ^ 2 * r ^ 2 := by ring
    _ = (Real.sin b ^ 2 + Real.cos b ^ 2) * r ^ 2 := by rw [hs]; ring
    _ = r ^ 2 := by rw [hb, one_mul]

theorem proj_norm_abs (a b r : ℝ) :
    Real.sqrt ((Real.sin a * Real.cos b * r) ^ 2 + (Real.sin b * r) ^ 2 +
      (Real.cos a * Real.cos b * r) ^ 2) = |r| := by
  rw [proj_sum_sq, Real.sqrt_sq_eq_abs]

/-- The distance from the origin of any projected point is `|radius|`. -/
theorem latLonToVec3_norm_abs (lat lon radius : ℝ) (deg : Bool) :
    norm3 (latLonToVec3 lat lon radius deg) = |radius| := by
  simp only [latLonToVec3, norm3]
  exact proj_norm_abs _ _ _

theorem remapVertex_norm_abs (r : ℝ) (v : ℝ × ℝ × ℝ) :
    norm3 (remapVertex r v) = |r| := by
  simp only [remapVertex, norm3]
  exact proj_norm_abs _ _ _

/-! ## Claim theorems -/

/-- **C1** (code bug): when the initial fetch or parse fails, `loadJSON` does
catch and log the failure and returns `null` — but `setup` then dereferences
`null` (`data.features.length`), so startup throws an uncaught `TypeError`
instead of rendering the globe with no country overlays. -/
theorem loadJSON_failure_crashes_setup
    (triangulate : List (ℝ × ℝ) → List (ℝ × ℝ × ℝ)) (rand : Nat → Nat) :
    setupAfterLoad triangulate rand (loadJSON FetchResult.httpError) =
      Except.error
        "TypeError: Cannot read properties of null (reading features)" := rfl

/-- A state with a country selected, for exercising the pointer-down
handler. -/
def selectedDemoState : AppState :=
  { scene := [{ id := 7, name := "CountryA", color := 0xF0F0C9 }],
    pointer := { x := 0, y := 0, locked := none },
    selected := { id := some 7, color := 0xF0F0C9, locked := false },
    mouseDown := false,
    output := labelHTML "CountryA" }

/-- **C2** (counterexample): in a state with `selectedId` set, the
pointer-down handler does *not* clear it: `selected.id` is still `some 7`
afterwards. -/
theorem onMouseDown_keeps_selection_cex :
    selectedDemoState.selected.id = some 7 ∧
      ¬ (onMouseDown selectedDemoState).selected.id = none := by
  exact ⟨rfl, by decide⟩

/-- **C2** (amended): the pointer-down handler sets the dragging flag and
resets `selected.locked` to `false`, but leaves `selectedId` (and the scene,
the stored color, and the label) unchanged. -/
theorem onMouseDown_amended (s : AppState) :
    (onMouseDown s).mouseDown = true ∧
    (onMouseDown s).selected.id = s.selected.id ∧
    (onMouseDown s).selected.color = s.selected.color ∧
    (onMouseDown s).selected.locked = false ∧
    (onMouseDown s).scene = s.scene ∧
    (onMouseDown s).output = s.output :=
  ⟨rfl, rfl, rfl, rfl, rfl, rfl⟩

/-- **C4**: for every latitude, longitude, radius and degrees flag, the
projection returns exactly `(r*sin(lat')*cos(lon'), r*sin(lon'),
r*cos(lat')*cos(lon'))` where the angles are multiplied by `π/180` exactly
when the flag is set. -/
theorem latLonToVec3_formula (lat lon radius : ℝ) (deg : Bool) :
    latLonToVec3 lat lon radius deg =
      (radius * Real.sin (convAngle deg lat) * Real.cos (convAngle deg lon),
       radius * Real.sin (convAngle deg lon),
       radius * Real.cos (convAngle deg lat) * Real.cos (convAngle deg lon)) := by
  simp only [latLonToVec3, convAngle, Prod.mk.injEq]
  exact ⟨by ring, by ring, by ring⟩

/-- **C5** (counterexample): at radius `-1` the projected point's distance
from the origin is `1`, not `-1`, so the claim fails for negative radii. -/
theorem norm_negative_radius_cex :
    norm3 (latLonToVec3 0 0 (-1) true) ≠ -1 := by
  rw [latLonToVec3_norm_abs]
  norm_num

/-- **C5** (amended): for every `lat`, `lon`, flag and *nonnegative* radius,
the Euclidean distance of the projected point from the origin equals the
radius exactly over the reals (in general it is `|radius|`). -/
theorem latLonToVec3_norm_nonneg (lat lon radius : ℝ) (deg : Bool)
    (hr : 0 ≤ radius) :
    norm3 (latLonToVec3 lat lon radius deg) = radius := by
  rw [latLonToVec3_norm_abs, abs_of_nonneg hr]

/-- **C5** witness: at `lat = 0`, `lon = 0`, `radius = 1`. -/
theorem latLonToVec3_norm_nonneg_witness :
    (0 : ℝ) ≤ 1 ∧ norm3 (latLonToVec3 0 0 1 false) = 1 :=
  ⟨by norm_num, latLonToVec3_norm_nonneg 0 0 1 false (by norm_num)⟩

/-- **C7**: while the dragging flag is set, the pointer-move handler returns
the state unchanged — no pointer update, no recolor, no restore, no label
change — for every window size, event and hit-test result. -/
theorem pointerMove_noop_while_dragging (win : ℚ × ℚ) (ev : MoveEvent)
    (hit : Option Hit) (s : AppState) (hd : s.mouseDown = true) :
    onPointerMove win ev hit s = (s, []) := by
  unfold onPointerMove
  rw [if_pos hd]

/-- **C7** witness: a concrete dragging state. -/
theorem pointerMove_noop_while_dragging_witness :
    (onMouseDown selectedDemoState).mouseDown = true ∧
      onPointerMove (2, 2) { clientX := 1, clientY := 1 }
        (some { id := 9, name := "CountryB" }) (onMouseDown selectedDemoState) =
        (onMouseDown selectedDemoState, []) :=
  ⟨rfl, pointerMove_noop_while_dragging (2, 2) { clientX := 1, clientY := 1 }
    (some { id := 9, name := "CountryB" }) (onMouseDown selectedDemoState) rfl⟩

/-- A populated scene: the base globe plus two country meshes (three.js ids
are small positive integers: the scene and camera take 0 and 1, meshes
follow). -/
def demoScene : Scene :=
  [{ id := 2, name := "globe", color := 0x124E78 },
   { id := 3, name := "CountryA", color := 0xF0F0C9 },
   { id := 4, name := "CountryB", color := 0xF0F0CA }]

/-- The scripted sequence of nearest-hit results
`[globe, countryA, countryA, countryB, none]`. -/
def scriptedHits : List (Option Hit) :=
  [some { id := 2, name := "globe" },
   some { id := 3, name := "CountryA" },
   some { id := 3, name := "CountryA" },
   some { id := 4, name := "CountryB" },
   none]

/-- **C3**: from the empty selection state with dragging off, the scripted
hit sequence `[globe, A, A, B, none]` emits per step exactly: no event,
highlight A, no event, restore A then highlight B, restore B — no redundant
recolor on the repeated hit, exactly one restore before the new highlight. -/
theorem scripted_sequence_events :
    (runMoves (2, 2) { clientX := 1, clientY := 1 } scriptedHits
        (initState demoScene)).2 =
      [[], [Event.highlight 3], [],
       [Event.restore 3, Event.highlight 4], [Event.restore 4]] := rfl

/-- **C8**: an entry wrapped in one extra single-element nesting is unwrapped
exactly one level, so it yields the same mesh as its unwrapped equivalent
(for any genuine ring, i.e. one that is not itself a one-element array). -/
theorem wrapped_entry_same_mesh
    (triangulate : List (ℝ × ℝ) → List (ℝ × ℝ × ℝ)) (r : ℝ) (entry : JVal)
    (h : isSingletonArr entry = false) :
    processEntry triangulate r (JVal.arr [entry]) =
      processEntry triangulate r entry := by
  have h1 : unwrapSingle (JVal.arr [entry]) = entry := rfl
  have h2 : unwrapSingle entry = entry := by
    cases entry with
    | num x => rfl
    | arr l =>
      match l with
      | [] => rfl
      | [a] => simp [isSingletonArr] at h
      | a :: b :: t => rfl
  unfold processEntry
  rw [h1, h2]

/-- The triangular test polygon `[[0,0],[10,0],[0,10]]` as a GeoJSON
coordinates entry. -/
noncomputable def triangleEntry : JVal :=
  .arr [.arr [.num 0, .num 0], .arr [.num 10, .num 0], .arr [.num 0, .num 10]]

/-- `THREE.ShapeGeometry` on a simple triangle emits exactly the contour
vertices, in the flat plane (`z = 0`). -/
noncomputable def idTriangulate : List (ℝ × ℝ) → List (ℝ × ℝ × ℝ) :=
  fun pts => pts.map fun p => (p.1, p.2, 0)

/-- **C8** witness: the triangle entry, wrapped and not. -/
theorem wrapped_entry_same_mesh_witness :
    isSingletonArr triangleEntry = false ∧
      processEntry idTriangulate 20 (JVal.arr [triangleEntry]) =
        processEntry idTriangulate 20 triangleEntry :=
  ⟨rfl, wrapped_entry_same_mesh idTriangulate 20 triangleEntry rfl⟩

/-- **C9**: for a triangulator that (like `ShapeGeometry` on a triangle)
returns the contour vertices, feeding `createShapeMesh` the polygon
`[[0,0],[10,0],[0,10]]` with radius 20 yields three vertices, each at
distance 20 from the origin, with y-coordinates `0`, `0`, `20*sin(10°)`. -/
theorem triangle_mesh_vertices
    (triangulate : List (ℝ × ℝ) → List (ℝ × ℝ × ℝ))
    (hT : ∀ pts : List (ℝ × ℝ), triangulate pts = pts.map fun p => (p.1, p.2, 0)) :
    ((createShapeMesh triangulate triangleEntry 20).getD []).map norm3 =
        [20, 20, 20] ∧
      ((createShapeMesh triangulate triangleEntry 20).getD []).map
          (fun v => v.2.1) =
        [0, 0, 20 * Real.sin (10 * Real.pi / 180)] := by
  have hdec : decodeRing triangleEntry =
      some [((0 : ℝ), (0 : ℝ)), (10, 0), (0, 10)] := rfl
  have hmesh : createShapeMesh triangulate triangleEntry 20 =
      some [remapVertex 20 (0 * Real.pi / 180, 0 * Real.pi / 180, 0),
            remapVertex 20 (10 * Real.pi / 180, 0 * Real.pi / 180, 0),
            remapVertex 20 (0 * Real.pi / 180, 10 * Real.pi / 180, 0)] := by
    unfold createShapeMesh
    rw [hdec]
    simp only [Option.map_some']
    rw [hT]
    rfl
  rw [hmesh]
  have h0 : (0 : ℝ) * Real.pi / 180 = 0 := by ring
  constructor
  · simp only [Option.getD_some, List.map_cons, List.map_nil,
      remapVertex_norm_abs]
    norm_num
  · simp only [Option.getD_some, List.map_cons, List.map_nil, remapVertex, h0,
      zero_mul, zero_div, Real.sin_zero, List.cons.injEq, and_true]
    exact ⟨trivial, trivial, by ring⟩

/-- **C9** witness: the contour-preserving triangulator. -/
theorem triangle_mesh_vertices_witness :
    (∀ pts : List (ℝ × ℝ), idTriangulate pts = pts.map fun p => (p.1, p.2, 0)) ∧
      (((createShapeMesh idTriangulate triangleEntry 20).getD []).map norm3 =
          [20, 20, 20] ∧
        ((createShapeMesh idTriangulate triangleEntry 20).getD []).map
            (fun v => v.2.1) =
          [0, 0, 20 * Real.sin (10 * Real.pi / 180)]) :=
  ⟨fun _ => rfl, triangle_mesh_vertices idTriangulate fun _ => rfl⟩

theorem selectObject_pointer (h : Hit) (s : AppState) :
    (selectObject h s).1.pointer = s.pointer := by
  unfold selectObject
  split <;> rfl

theorem deselect_pointer (s : AppState) :
    (deselect s).1.pointer = s.pointer := by
  unfold deselect
  split <;> rfl

/-- No branch of the pointer-move handler writes `pointer.locked`: it only
updates `pointer.x` and `pointer.y`. -/
theorem onPointerMove_pointer_locked (win : ℚ × ℚ) (ev : MoveEvent)
    (hit : Option Hit) (s : AppState) :
    ((onPointerMove win ev hit s).1).pointer.locked = s.pointer.locked := by
  unfold onPointerMove
  split
  · rfl
  · cases hit with
    | none => rw [deselect_pointer]
    | some h =>
      dsimp only
      split
      · split
        · rw [selectObject_pointer]
        · rfl
      · rw [deselect_pointer]

theorem applyStep_pointer_locked (st : Step) (s : AppState) :
    (applyStep st s).pointer.locked = s.pointer.locked := by
  cases st with
  | move win ev hit => exact onPointerMove_pointer_locked win ev hit s
  | down => rfl
  | up => rfl

/-- **C10**: `pointer.locked` is never assigned by any handler
(`onMouseDown` writes `selected.locked` instead), so in every reachable state
it is still `undefined`; hence the render step's pointer-lock condition is
vacuously satisfied and the scene auto-rotates exactly when `mouseState.down`
is false. -/
theorem pointer_locked_vacuous (scene : Scene) (s : AppState)
    (hr : Reachable scene s) :
    s.pointer.locked = none ∧ autoRotates s = !s.mouseDown := by
  have hl : s.pointer.locked = none := by
    induction hr with
    | init => rfl
    | step st hrs ih => rw [applyStep_pointer_locked]; exact ih
  refine ⟨hl, ?_⟩
  unfold autoRotates
  rw [hl]
  simp [jsTruthyOpt]

/-- **C10** witness: the startup state over the demo scene. -/
theorem pointer_locked_vacuous_witness :
    (initState demoScene).pointer.locked = none ∧
      autoRotates (initState demoScene) = !(initState demoScene).mouseDown :=
  pointer_locked_vacuous demoScene (initState demoScene) Reachable.init

theorem setColor_of_forall_ne (L : Scene) (i c : Nat)
    (h : ∀ o ∈ L, o.id ≠ i) : setColor L i c = L := by
  induction L with
  | nil => rfl
  | cons o t ih =>
    have hbeq : (o.id == i) = false := by
      simp [h o (List.mem_cons_self o t)]
    simp only [setColor, hbeq, Bool.false_eq_true, if_false]
    rw [ih fun o' ho' => h o' (List.mem_cons_of_mem o ho')]

/-- Restoring the recorded color undoes a recolor, provided scene ids are
distinct (three.js object ids are globally unique). -/
theorem setColor_restore (L : Scene) (i c : Nat)
    (hnd : (L.map Obj.id).Nodup) :
    setColor (setColor L i c) i (getColor L i) = L := by
  induction L with
  | nil => rfl
  | cons o t ih =>
    rw [List.map_cons, List.nodup_cons] at hnd
    obtain ⟨hni, hndt⟩ := hnd
    by_cases hoi : o.id = i
    · have htne : ∀ o' ∈ t, o'.id ≠ i := by
        intro o' ho' he
        apply hni
        rw [hoi, ← he]
        exact List.mem_map_of_mem Obj.id ho'
      have hbeq : (o.id == i) = true := by simp [hoi]
      have hg : getColor (o :: t) i = o.color := by
        simp only [getColor, hbeq, if_true]
      have hs1 : setColor (o :: t) i c = { o with color := c } :: t := by
        simp only [setColor, hbeq, if_true]
        rw [setColor_of_forall_ne t i c htne]
      rw [hg, hs1]
      simp only [setColor, hbeq, if_true]
      rw [setColor_of_forall_ne t i o.color htne]
    · have hbeq : (o.id == i) = false := by simp [hoi]
      have hg : getColor (o :: t) i = getColor t i := by
        simp only [getColor, hbeq, Bool.false_eq_true, if_false]
      rw [hg]
      simp only [setColor, hbeq, Bool.false_eq_true, if_false]
      rw [ih hndt]

/-- The selection invariant (§3 of the spec): relative to `base` — the scene
as it is with nothing highlighted — a truthy `selected.id = i` means
`selected.color` is object `i`'s base (pre-highlight) color and the live
scene is `base` with object `i` recolored to the highlight color; with no
selection the live scene *is* `base`. -/
def selInv (base : Scene) (sel : Selected) (scene : Scene) : Prop :=
  match sel.id with
  | none => scene = base
  | some i => i ≠ 0 ∧ sel.color = getColor base i ∧
      scene = setColor base i 0xD74E09

theorem deselect_preserves (base : Scene) (s : AppState)
    (hnd : (base.map Obj.id).Nodup)
    (hinv : selInv base s.selected s.scene) :
    selInv base (deselect s).1.selected (deselect s).1.scene := by
  unfold deselect
  cases hsel : s.selected.id with
  | none =>
    rw [if_neg (by simp [jsTruthyId])]
    exact hinv
  | some i =>
    simp only [selInv, hsel] at hinv
    obtain ⟨hi0, hcol, hscene⟩ := hinv
    have ht : jsTruthyId (some i) = true := by simp [jsTruthyId, hi0]
    rw [if_pos ht]
    simp only [selInv, Option.getD_some]
    rw [hscene, hcol]
    exact setColor_restore base i _ hnd

theorem selectObject_establishes (base : Scene) (h : Hit) (s : AppState)
    (hnd : (base.map Obj.id).Nodup) (hid : h.id ≠ 0)
    (hinv : selInv base s.selected s.scene) :
    selInv base (selectObject h s).1.selected (selectObject h s).1.scene := by
  unfold selectObject
  cases hsel : s.selected.id with
  | none =>
    have hscene : s.scene = base := by simpa [selInv, hsel] using hinv
    rw [if_neg (by simp [jsTruthyId])]
    simp only [selInv]
    rw [hscene]
    exact ⟨hid, rfl, rfl⟩
  | some i =>
    simp only [selInv, hsel] at hinv
    obtain ⟨hi0, hcol, hscene⟩ := hinv
    have ht : jsTruthyId (some i) = true := by simp [jsTruthyId, hi0]
    have hrestore :
        setColor s.scene ((some i).getD 0) s.selected.color = base := by
      simp only [Option.getD_some]
      rw [hscene, hcol]
      exact setColor_restore base i _ hnd
    rw [if_pos ht]
    simp only [selInv]
    rw [hrestore]
    exact ⟨hid, rfl, rfl⟩

/-- The nearest hit of a pointer-move step, when there is one, is a real
three.js object, whose id is nonzero (the scene and camera take ids 0 and 1,
scene children follow). -/
def stepHitsNonzero : Step → Bool
  | .move _ _ (some h) => h.id != 0
  | _ => true

/-- **C6**: every handler transition preserves the selection invariant —
whenever `selectedId` is set, `originalColor` holds the selected object's
pre-highlight color and the scene differs from the unhighlighted scene
exactly by that one highlight, so deselecting or switching restores the
exact pre-highlight color. -/
theorem selection_invariant_preserved (base : Scene) (st : Step)
    (s : AppState) (hnd : (base.map Obj.id).Nodup)
    (hok : stepHitsNonzero st = true)
    (hinv : selInv base s.selected s.scene) :
    selInv base (applyStep st s).selected (applyStep st s).scene := by
  cases st with
  | down => exact hinv
  | up => exact hinv
  | move win ev hit =>
    show selInv base ((onPointerMove win ev hit s).1).selected
      ((onPointerMove win ev hit s).1).scene
    cases hds : s.mouseDown with
    | true =>
      simp only [onPointerMove, hds, if_true]
      exact hinv
    | false =>
      cases hit with
      | none =>
        simp only [onPointerMove, hds, Bool.false_eq_true, if_false]
        exact deselect_preserves base _ hnd hinv
      | some h =>
        have hid : h.id ≠ 0 := by simpa [stepHitsNonzero] using hok
        simp only [onPointerMove, hds, Bool.false_eq_true, if_false]
        split
        · split
          · exact selectObject_establishes base h _ hnd hid hinv
          · exact hinv
        · exact deselect_preserves base _ hnd hinv

/-- **C6** witness: hovering CountryA from the startup state over the demo
scene. -/
theorem selection_invariant_preserved_witness :
    (demoScene.map Obj.id).Nodup ∧
      stepHitsNonzero (Step.move (2, 2) { clientX := 1, clientY := 1 }
        (some { id := 3, name := "CountryA" })) = true ∧
      selInv demoScene (initState demoScene).selected
        (initState demoScene).scene ∧
      selInv demoScene
        (applyStep (Step.move (2, 2) { clientX := 1, clientY := 1 }
          (some { id := 3, name := "CountryA" })) (initState demoScene)).selected
        (applyStep (Step.move (2, 2) { clientX := 1, clientY := 1 }
          (some { id := 3, name := "CountryA" })) (initState demoScene)).scene :=
  ⟨by decide, rfl, rfl,
    selection_invariant_preserved demoScene
      (Step.move (2, 2) { clientX := 1, clientY := 1 }
        (some { id := 3, name := "CountryA" }))
      (initState demoScene) (by decide) rfl rfl⟩

end Globe
